import Mathlib

/-!
Verification of the animated GIF texture engine (`animatedGifTexture.ts` and
its patch shader `animatedGifTextureShader.ts`).

The embedding below models, directly from the source:
- the per-tick scheduler `_renderFrame` together with the draw attempt
  `_drawPatch` and the readiness / `onLoad` bookkeeping, as a state machine
  on `TickState`;
- the placement transform computed in `_createGifResources` as a 3x3
  rational matrix;
- the fragment shader's alpha-test discard and the compositor's
  write-only-inside-the-patch-rectangle behaviour at the pixel level;
- `_createGifResources` and `dispose` as fallible operations returning
  `Except`, recording the resource-release events in program order.

Clock readings and frame delays are modelled as integers (milliseconds);
pixel colour components and matrix entries as rationals.
-/

namespace AnimatedGif

/-- Pixel dimensions and placement of one decoded GIF frame
(the `dims` field of `GifFrame` in the source). -/
structure Dims where
  width : ℤ
  height : ℤ
  top : ℤ
  left : ℤ
deriving DecidableEq

/-- A decoded GIF frame as the scheduler sees it: its dimensions and the
time (in milliseconds) the frame stays visible (`delay`). -/
structure GifFrame where
  dims : Dims
  delay : ℤ
deriving DecidableEq

/-- The mutable fields of `AnimatedGifTexture` that the render loop touches:
`_currentFrame` (null until the first tick), `_nextFrameIndex`,
`_previousDate`, the internal texture's `isReady` flag, and a counter of
`_onLoad` invocations. -/
structure TickState where
  currentFrame : Option GifFrame
  nextFrameIndex : ℕ
  previousDate : ℤ
  isReady : Bool
  onLoadCalls : ℕ
deriving DecidableEq

/-- The index update at the end of `_renderFrame` (lines 232-235):
increment `_nextFrameIndex` and reset it to `0` once it reaches the frame
count. -/
def advanceIndex (count i : ℕ) : ℕ :=
  if i + 1 ≥ count then 0 else i + 1

/-- `_drawPatch` (lines 241-270): when the effect is not yet compiled the
draw silently does nothing; otherwise the patch is rendered and, on the
first successful render only, the texture becomes ready and the one-shot
`_onLoad` callback fires.  Returns the updated state and whether a draw
happened. -/
def drawPatch (effectReady : Bool) (s : TickState) : TickState × Bool :=
  if effectReady then
    ({ s with
        isReady := true,
        onLoadCalls := if s.isReady then s.onLoadCalls else s.onLoadCalls + 1 },
      true)
  else (s, false)

/-- The advance path of `_renderFrame` (lines 222-235): load the frame at
`_nextFrameIndex` as the current frame, attempt the draw, record the tick's
clock reading in `_previousDate`, and advance `_nextFrameIndex`. -/
def renderAdvance (frames : List GifFrame) (now : ℤ) (effectReady : Bool)
    (s : TickState) : TickState × Bool :=
  let s1 : TickState := { s with currentFrame := frames[s.nextFrameIndex]? }
  ({ (drawPatch effectReady s1).1 with
      previousDate := now,
      nextFrameIndex := advanceIndex frames.length s.nextFrameIndex },
    (drawPatch effectReady s1).2)

/-- `_renderFrame` (lines 216-236): one render-loop tick.  If a current
frame exists and its delay has not yet elapsed, the tick is a no-op;
otherwise the scheduler advances. -/
def renderFrame (frames : List GifFrame) (now : ℤ) (effectReady : Bool)
    (s : TickState) : TickState × Bool :=
  match s.currentFrame with
  | some f =>
      if now - s.previousDate < f.delay then (s, false)
      else renderAdvance frames now effectReady s
  | none => renderAdvance frames now effectReady s

/-- The state at the moment the render loop starts: no current frame yet,
next index `0`, texture not ready (`_createInternalTexture` line 94 and
`_createGifResources` line 210), `_onLoad` not yet invoked. -/
def initState : TickState :=
  { currentFrame := none
    nextFrameIndex := 0
    previousDate := 0
    isReady := false
    onLoadCalls := 0 }

/-- Run a sequence of ticks; each tick carries its clock reading and
whether the shader effect is compiled at that moment. -/
def runTicks (frames : List GifFrame) : TickState → List (ℤ × Bool) → TickState
  | s, [] => s
  | s, t :: rest => runTicks frames (renderFrame frames t.1 t.2 s).1 rest

/-- The invariant tying the `_onLoad` call count to the readiness flag:
the callback has fired exactly once iff the texture is ready. -/
def ReadyInv (s : TickState) : Prop :=
  s.onLoadCalls = if s.isReady then 1 else 0

/-- The placement transform computed in `_createGifResources`
(lines 175-184), as a 3x3 rational matrix; `canvas` is `frames[0].dims`
and `d` the current frame's dims. -/
def worldMatrixOf (canvas d : Dims) : Matrix (Fin 3) (Fin 3) ℚ :=
  let sx : ℚ := (d.width : ℚ) / (canvas.width : ℚ)
  let sy : ℚ := (d.height : ℚ) / (canvas.height : ℚ)
  let tx : ℚ := (d.left : ℚ) / (canvas.width : ℚ)
  let ty : ℚ := ((canvas.height : ℚ) - ((d.top : ℚ) + (d.height : ℚ))) / (canvas.height : ℚ)
  !![sx, 0, tx;
     0, sy, ty;
     0, 0, 1]

/-- The Placement Transform exactly as the spec words it in section 4.2,
for comparison with the source's `worldMatrixOf`. -/
def placementTransformSpec (canvasWidth canvasHeight patchWidth patchHeight
    offsetLeft offsetTop : ℤ) : Matrix (Fin 3) (Fin 3) ℚ :=
  !![(patchWidth : ℚ) / (canvasWidth : ℚ), 0, (offsetLeft : ℚ) / (canvasWidth : ℚ);
     0, (patchHeight : ℚ) / (canvasHeight : ℚ),
        ((canvasHeight : ℚ) - ((offsetTop : ℚ) + (patchHeight : ℚ))) / (canvasHeight : ℚ);
     0, 0, 1]

/-- An RGBA colour with rational components, as handled by the fragment
shader. -/
structure Pixel where
  r : ℚ
  g : ℚ
  b : ℚ
  a : ℚ
deriving DecidableEq

/-- Componentwise product of two colours (GLSL `vec4` multiplication). -/
def Pixel.mul (p c : Pixel) : Pixel :=
  { r := p.r * c.r, g := p.g * c.g, b := p.b * c.b, a := p.a * c.a }

/-- The patch fragment shader: `finalColor = texel * color`; the fragment
is discarded (`none`) exactly when `color.a == 1.` and `finalColor.a == 0.`
(shader lines 44-52). -/
def fragmentShade (texel color : Pixel) : Option Pixel :=
  let finalColor := Pixel.mul texel color
  if color.a = 1 ∧ finalColor.a = 0 then none else some finalColor

/-- An integer pixel rectangle: the sub-rectangle of the canvas covered by
a frame's patch. -/
structure Rect where
  left : ℤ
  top : ℤ
  width : ℤ
  height : ℤ
deriving DecidableEq

/-- Membership of the pixel at column `x`, row `y` in the rectangle. -/
def Rect.containsPix (R : Rect) (x y : ℤ) : Prop :=
  R.left ≤ x ∧ x < R.left + R.width ∧ R.top ≤ y ∧ y < R.top + R.height

instance (R : Rect) (x y : ℤ) : Decidable (R.containsPix x y) := by
  unfold Rect.containsPix
  infer_instance

/-- One compositor draw onto the accumulation surface (the render target is
bound without clearing; the unit quad, placed by the world matrix, covers
exactly the patch rectangle `R`): inside `R` each fragment runs the shader,
a discarded fragment leaves the previous pixel, and pixels outside `R` are
not rasterized at all. -/
def drawPatchSurface (surface : ℤ → ℤ → Pixel) (R : Rect)
    (patch : ℤ → ℤ → Pixel) (color : Pixel) : ℤ → ℤ → Pixel :=
  fun x y =>
    if R.containsPix x y then
      match fragmentShade (patch x y) color with
      | none => surface x y
      | some c => c
    else surface x y

/-- Failure modes relevant to construction and disposal: a JavaScript
`TypeError` raised by touching a member of `undefined` or iterating `null`,
and the dedicated no-frames error the spec postulates. -/
inductive GifError
  | typeError
  | noFrames
deriving DecidableEq

/-- `_createGifResources` (lines 159-211): builds one placement matrix per
frame and the render target from `frames[0].dims`; on an empty frame list
the access `this._frames[0].dims` on line 191 raises a `TypeError`.  The
function never produces a dedicated no-frames error. -/
def createGifResources (frames : List GifFrame) :
    Except GifError (List (Matrix (Fin 3) (Fin 3) ℚ) × Dims) :=
  match frames with
  | [] => Except.error GifError.typeError
  | f0 :: _ => Except.ok (frames.map (fun f => worldMatrixOf f0.dims f.dims), f0.dims)

/-- The individual release operations `dispose` (lines 274-291) performs. -/
inductive DisposeEvent
  | stopRenderLoop
  | disposeEffectWrapper
  | disposeEffectRenderer
  | disposeFrameTexture (i : ℕ)
  | disposeRenderTarget
  | superDispose
deriving DecidableEq

/-- The sequence of release operations `dispose` performs, in program
order: stop the render loop, dispose the effect wrapper then the effect
renderer, dispose each frame's texture, dispose the render target, and
finally the base-class dispose. -/
def disposeEvents (frameCount : ℕ) : List DisposeEvent :=
  DisposeEvent.stopRenderLoop ::
  DisposeEvent.disposeEffectWrapper ::
  DisposeEvent.disposeEffectRenderer ::
  ((List.range frameCount).map DisposeEvent.disposeFrameTexture
    ++ [DisposeEvent.disposeRenderTarget, DisposeEvent.superDispose])

/-- The release phase an event belongs to in the source's `dispose` order. -/
def codeRank : DisposeEvent → ℕ
  | DisposeEvent.stopRenderLoop => 0
  | DisposeEvent.disposeEffectWrapper => 1
  | DisposeEvent.disposeEffectRenderer => 2
  | DisposeEvent.disposeFrameTexture _ => 3
  | DisposeEvent.disposeRenderTarget => 4
  | DisposeEvent.superDispose => 5

/-- The release phase an event belongs to in the order the claim states:
callback first, then every patch texture, then program and geometry
resources, then the accumulation surface. -/
def specRank : DisposeEvent → ℕ
  | DisposeEvent.stopRenderLoop => 0
  | DisposeEvent.disposeFrameTexture _ => 1
  | DisposeEvent.disposeEffectWrapper => 2
  | DisposeEvent.disposeEffectRenderer => 2
  | DisposeEvent.disposeRenderTarget => 3
  | DisposeEvent.superDispose => 4

/-- The fields of the texture handle that `dispose` dereferences, with
their nullability: `_frames` is `null` and the render target `undefined`
until the asynchronous decode callback has run. -/
structure HandleState where
  framesLoaded : Option (List GifFrame)
  renderTargetCreated : Bool
deriving DecidableEq

/-- `dispose` evaluated on a handle state: stopping the render loop and
disposing the wrapper and renderer always succeed (they are created in the
constructor), but iterating `this._frames` while it is still `null`
(line 283) raises a `TypeError`, as does disposing the still-`undefined`
render target (line 287). -/
def disposeHandle (s : HandleState) : Except GifError (List DisposeEvent) :=
  match s.framesLoaded with
  | none => Except.error GifError.typeError
  | some frames =>
      if s.renderTargetCreated then Except.ok (disposeEvents frames.length)
      else Except.error GifError.typeError

/-- The handle state right after the constructor returns, before the decode
callback has run. -/
def preDecodeHandle : HandleState :=
  { framesLoaded := none, renderTargetCreated := false }

/-! Concrete sample data used by the witnesses. -/

/-- A full-canvas frame with a 100 ms delay. -/
def frameA : GifFrame :=
  { dims := { width := 4, height := 3, top := 0, left := 0 }, delay := 100 }

/-- A partial patch frame with a 50 ms delay. -/
def frameB : GifFrame :=
  { dims := { width := 2, height := 1, top := 1, left := 1 }, delay := 50 }

/-- A two-frame sequence. -/
def sampleFrames : List GifFrame := [frameA, frameB]

/-- A state in the middle of playback: frame A current, drawn at time 0. -/
def gateState : TickState :=
  { currentFrame := some frameA
    nextFrameIndex := 1
    previousDate := 0
    isReady := true
    onLoadCalls := 1 }

/-- An idle state whose next frame index is 1. -/
def idxState : TickState :=
  { initState with nextFrameIndex := 1 }

/-- A state that is already ready. -/
def readyState : TickState :=
  { initState with isReady := true, onLoadCalls := 1 }

/-- The canvas dimensions used by the placement witness. -/
def canvasDims : Dims := { width := 4, height := 3, top := 0, left := 0 }

/-- Constant red opaque accumulation surface. -/
def wSurface : ℤ → ℤ → Pixel := fun _ _ => { r := 1, g := 0, b := 0, a := 1 }

/-- A fully transparent patch. -/
def wPatch : ℤ → ℤ → Pixel := fun _ _ => { r := 0, g := 0, b := 0, a := 0 }

/-- The patch rectangle used by the accumulation witness. -/
def wRect : Rect := { left := 0, top := 0, width := 2, height := 2 }

/-- The opaque white compositing colour. -/
def wColor : Pixel := { r := 1, g := 1, b := 1, a := 1 }

/-! Helper lemmas. -/

theorem advanceIndex_eq_mod {count i : ℕ} (hi : i < count) :
    advanceIndex count i = (i + 1) % count := by
  unfold advanceIndex
  by_cases h : i + 1 ≥ count
  · have heq : i + 1 = count := le_antisymm (Nat.succ_le_of_lt hi) h
    simp [h, heq]
  · have hlt : i + 1 < count := lt_of_not_ge h
    simp [h, Nat.mod_eq_of_lt hlt]

theorem advanceIndex_iterate {count : ℕ} (h0 : 0 < count) (i : ℕ)
    (hi : i < count) (k : ℕ) :
    (advanceIndex count)^[k] i = (i + k) % count := by
  induction k with
  | zero => simp [Nat.mod_eq_of_lt hi]
  | succ n ih =>
      rw [Function.iterate_succ_apply', ih,
        advanceIndex_eq_mod (Nat.mod_lt _ h0), Nat.mod_add_mod]
      congr 1

theorem renderFrame_none (frames : List GifFrame) (now : ℤ) (eff : Bool)
    (s : TickState) (hc : s.currentFrame = none) :
    renderFrame frames now eff s = renderAdvance frames now eff s := by
  simp [renderFrame, hc]

theorem renderFrame_hold (frames : List GifFrame) (now : ℤ) (eff : Bool)
    (s : TickState) (f : GifFrame) (hc : s.currentFrame = some f)
    (hlt : now - s.previousDate < f.delay) :
    renderFrame frames now eff s = (s, false) := by
  simp [renderFrame, hc, hlt]

theorem renderFrame_elapsed (frames : List GifFrame) (now : ℤ) (eff : Bool)
    (s : TickState) (f : GifFrame) (hc : s.currentFrame = some f)
    (hge : f.delay ≤ now - s.previousDate) :
    renderFrame frames now eff s = renderAdvance frames now eff s := by
  simp [renderFrame, hc, not_lt.mpr hge]

theorem renderAdvance_readyInv (frames : List GifFrame) (now : ℤ) (eff : Bool)
    (s : TickState) (h : ReadyInv s) :
    ReadyInv (renderAdvance frames now eff s).1 := by
  unfold ReadyInv at h ⊢
  cases eff <;> cases hr : s.isReady <;> simp_all [renderAdvance, drawPatch]

theorem renderFrame_readyInv (frames : List GifFrame) (now : ℤ) (eff : Bool)
    (s : TickState) (h : ReadyInv s) :
    ReadyInv (renderFrame frames now eff s).1 := by
  cases hc : s.currentFrame with
  | none =>
      rw [renderFrame_none frames now eff s hc]
      exact renderAdvance_readyInv frames now eff s h
  | some f =>
      by_cases hlt : now - s.previousDate < f.delay
      · rw [renderFrame_hold frames now eff s f hc hlt]
        exact h
      · rw [renderFrame_elapsed frames now eff s f hc (not_lt.mp hlt)]
        exact renderAdvance_readyInv frames now eff s h

theorem runTicks_readyInv (frames : List GifFrame) (ticks : List (ℤ × Bool))
    (s : TickState) (h : ReadyInv s) :
    ReadyInv (runTicks frames s ticks) := by
  induction ticks generalizing s with
  | nil => exact h
  | cons t rest ih =>
      exact ih _ (renderFrame_readyInv frames t.1 t.2 s h)

theorem renderFrame_isReady_mono (frames : List GifFrame) (now : ℤ)
    (eff : Bool) (s : TickState) (h : s.isReady = true) :
    (renderFrame frames now eff s).1.isReady = true := by
  cases hc : s.currentFrame with
  | none => cases eff <;> simp [renderFrame, hc, renderAdvance, drawPatch, h]
  | some f =>
      by_cases hlt : now - s.previousDate < f.delay
      · simp [renderFrame, hc, hlt, h]
      · cases eff <;> simp [renderFrame, hc, hlt, renderAdvance, drawPatch, h]

/-! Claim theorems. -/

/-- C1: on a tick where a current frame with delay `d` exists and the time
elapsed since the last advance is strictly below `d`, `_renderFrame` leaves
the whole state unchanged and draws nothing; on a tick where the elapsed
time has reached `d`, it records the tick's clock reading in
`_previousDate`, makes the frame at `_nextFrameIndex` current, and advances
`_nextFrameIndex`. -/
theorem scheduler_delay_gate (frames : List GifFrame) (now : ℤ) (eff : Bool)
    (s : TickState) (f : GifFrame) (hf : s.currentFrame = some f) :
    (now - s.previousDate < f.delay → renderFrame frames now eff s = (s, false)) ∧
    (f.delay ≤ now - s.previousDate →
      (renderFrame frames now eff s).1.previousDate = now ∧
      (renderFrame frames now eff s).1.currentFrame = frames[s.nextFrameIndex]? ∧
      (renderFrame frames now eff s).1.nextFrameIndex
        = advanceIndex frames.length s.nextFrameIndex) := by
  constructor
  · intro h
    simp [renderFrame, hf, h]
  · intro h
    have h' : ¬ (now - s.previousDate < f.delay) := not_lt.mpr h
    cases eff <;> simp [renderFrame, hf, h', renderAdvance, drawPatch]

/-- C1 witness: with frame A (delay 100) drawn at time 0, the tick at time
50 is a no-op and the tick at time 200 advances. -/
theorem scheduler_delay_gate_witness :
    renderFrame sampleFrames 50 true gateState = (gateState, false) ∧
    (renderFrame sampleFrames 200 true gateState).1.previousDate = 200 ∧
    (renderFrame sampleFrames 200 true gateState).1.currentFrame
      = sampleFrames[gateState.nextFrameIndex]? ∧
    (renderFrame sampleFrames 200 true gateState).1.nextFrameIndex
      = advanceIndex sampleFrames.length gateState.nextFrameIndex :=
  ⟨(scheduler_delay_gate sampleFrames 50 true gateState frameA rfl).1 (by decide),
   ((scheduler_delay_gate sampleFrames 200 true gateState frameA rfl).2 (by decide)).1,
   ((scheduler_delay_gate sampleFrames 200 true gateState frameA rfl).2 (by decide)).2.1,
   ((scheduler_delay_gate sampleFrames 200 true gateState frameA rfl).2 (by decide)).2.2⟩

/-- C2: the index update is cyclic modulo the frame count: each advance
maps `i` to `(i + 1) % N`, the last frame wraps to `0`, `N` consecutive
advances return to the start, and an advancing tick of `_renderFrame`
performs exactly this update. -/
theorem frame_index_cyclic (N i : ℕ) (h0 : 0 < N) (hi : i < N) :
    advanceIndex N i = (i + 1) % N ∧
    advanceIndex N (N - 1) = 0 ∧
    (advanceIndex N)^[N] i = i ∧
    (∀ frames now eff s, frames.length = N → s.currentFrame = none →
      s.nextFrameIndex = i →
      (renderFrame frames now eff s).1.nextFrameIndex = (i + 1) % N) := by
  refine ⟨advanceIndex_eq_mod hi, ?_, ?_, ?_⟩
  · have h1 : N - 1 < N := Nat.sub_lt h0 one_pos
    rw [advanceIndex_eq_mod h1, Nat.sub_add_cancel h0, Nat.mod_self]
  · rw [advanceIndex_iterate h0 i hi, Nat.add_mod_right]
    exact Nat.mod_eq_of_lt hi
  · intro frames now eff s hlen hcur hidx
    cases eff <;>
      simp [renderFrame, hcur, renderAdvance, drawPatch, hlen, hidx,
        advanceIndex_eq_mod hi]

/-- C2 witness: with two frames, index 1 wraps to 0 and two advances from
index 1 return to 1; a tick from an idle state at index 1 yields `(1+1)%2`. -/
theorem frame_index_cyclic_witness :
    advanceIndex 2 1 = (1 + 1) % 2 ∧
    advanceIndex 2 (2 - 1) = 0 ∧
    (advanceIndex 2)^[2] 1 = 1 ∧
    (renderFrame sampleFrames 0 false idxState).1.nextFrameIndex = (1 + 1) % 2 :=
  ⟨(frame_index_cyclic 2 1 (by decide) (by decide)).1,
   (frame_index_cyclic 2 1 (by decide) (by decide)).2.1,
   (frame_index_cyclic 2 1 (by decide) (by decide)).2.2.1,
   (frame_index_cyclic 2 1 (by decide) (by decide)).2.2.2
     sampleFrames 0 false idxState rfl rfl rfl⟩

/-- C3: the cached placement transform is exactly the matrix the spec
describes, with `canvasWidth`/`canvasHeight` being the first frame's
dimensions; and for a full-canvas frame (zero offsets, patch equal to the
canvas) it is the identity matrix. -/
theorem placement_transform_correct (canvas d : Dims)
    (hw : canvas.width ≠ 0) (hh : canvas.height ≠ 0) :
    worldMatrixOf canvas d
      = placementTransformSpec canvas.width canvas.height
          d.width d.height d.left d.top ∧
    worldMatrixOf canvas
      { width := canvas.width, height := canvas.height, top := 0, left := 0 }
      = 1 := by
  constructor
  · rfl
  · have hw' : (canvas.width : ℚ) ≠ 0 := Int.cast_ne_zero.mpr hw
    have hh' : (canvas.height : ℚ) ≠ 0 := Int.cast_ne_zero.mpr hh
    ext i j
    fin_cases i <;> fin_cases j <;>
      simp [worldMatrixOf, Matrix.one_apply, Matrix.vecHead, Matrix.vecTail,
        div_self hw', div_self hh']

/-- C3 witness: on a 4x3 canvas the transform of frame B matches the
spec's formula, and the full-canvas transform is the identity. -/
theorem placement_transform_correct_witness :
    canvasDims.width ≠ 0 ∧ canvasDims.height ≠ 0 ∧
    (worldMatrixOf canvasDims frameB.dims
      = placementTransformSpec canvasDims.width canvasDims.height
          frameB.dims.width frameB.dims.height frameB.dims.left frameB.dims.top ∧
    worldMatrixOf canvasDims
      { width := canvasDims.width, height := canvasDims.height, top := 0, left := 0 }
      = 1) :=
  ⟨by decide, by decide,
   placement_transform_correct canvasDims frameB.dims (by decide) (by decide)⟩

/-- C4: the readiness flag starts false with the callback count at zero,
a tick never resets readiness to false, and along every tick history the
`_onLoad` callback has been invoked exactly once iff the texture is ready
(so it fires exactly once, at the tick where readiness first becomes
true). -/
theorem readiness_once (frames : List GifFrame) (ticks : List (ℤ × Bool)) :
    initState.isReady = false ∧
    initState.onLoadCalls = 0 ∧
    (∀ s now eff, s.isReady = true →
      (renderFrame frames now eff s).1.isReady = true) ∧
    ((runTicks frames initState ticks).onLoadCalls
      = if (runTicks frames initState ticks).isReady then 1 else 0) := by
  refine ⟨rfl, rfl, ?_, ?_⟩
  · intro s now eff h
    exact renderFrame_isReady_mono frames now eff s h
  · exact runTicks_readyInv frames ticks initState rfl

/-- C4 witness: readiness starts false, a ready state stays ready through
a tick, and after a concrete three-tick history the callback count is one
iff the texture is ready. -/
theorem readiness_once_witness :
    initState.isReady = false ∧
    (renderFrame sampleFrames 0 true readyState).1.isReady = true ∧
    ((runTicks sampleFrames initState [(0, true), (5, true), (300, false)]).onLoadCalls
      = if (runTicks sampleFrames initState [(0, true), (5, true), (300, false)]).isReady
        then 1 else 0) :=
  ⟨(readiness_once sampleFrames []).1,
   (readiness_once sampleFrames []).2.2.1 readyState 0 true rfl,
   (readiness_once sampleFrames [(0, true), (5, true), (300, false)]).2.2.2⟩

/-- C5: a compositor draw over patch rectangle `R` leaves every pixel
outside `R` bit-identical to its previous value, and inside `R`, when the
compositing colour has alpha `1` and the sampled texel has alpha `0`, the
fragment is discarded so the previously accumulated pixel survives. -/
theorem accumulation_invariant (surface patch : ℤ → ℤ → Pixel) (R : Rect)
    (color : Pixel) (x y : ℤ) :
    (¬ R.containsPix x y →
      drawPatchSurface surface R patch color x y = surface x y) ∧
    (R.containsPix x y → color.a = 1 → (patch x y).a = 0 →
      drawPatchSurface surface R patch color x y = surface x y) := by
  constructor
  · intro h
    simp [drawPatchSurface, h]
  · intro hmem hca hta
    simp [drawPatchSurface, hmem, fragmentShade, Pixel.mul, hca, hta]

/-- C5 witness: with a red surface, a fully transparent patch over the
rectangle from (0,0) to (2,2), and opaque white compositing colour, the
pixel at (5,5) lies outside and is untouched, and the pixel at (1,1) lies
inside yet is preserved by the alpha-test discard. -/
theorem accumulation_invariant_witness :
    drawPatchSurface wSurface wRect wPatch wColor 5 5 = wSurface 5 5 ∧
    drawPatchSurface wSurface wRect wPatch wColor 1 1 = wSurface 1 1 :=
  ⟨(accumulation_invariant wSurface wPatch wRect wColor 5 5).1 (by decide),
   (accumulation_invariant wSurface wPatch wRect wColor 1 1).2 (by decide) rfl rfl⟩

/-- C6 counterexample: on the first tick with the shader effect not yet
compiled, nothing is drawn, yet the tick is not a no-op: the scheduler
still records the time and advances `_nextFrameIndex` from 0 to 1, and on
the next advancing tick (effect now ready) the draw shows frame B — frame
A is skipped, never retried. -/
theorem draw_failure_not_retried_cex :
    (renderFrame sampleFrames 0 false initState).2 = false ∧
    (renderFrame sampleFrames 0 false initState).1 ≠ initState ∧
    (renderFrame sampleFrames 0 false initState).1.nextFrameIndex = 1 ∧
    (renderFrame sampleFrames 0 false initState).1.isReady = false ∧
    (renderFrame sampleFrames 100 true
      (renderFrame sampleFrames 0 false initState).1).2 = true ∧
    (renderFrame sampleFrames 100 true
      (renderFrame sampleFrames 0 false initState).1).1.currentFrame
      = some frameB := by
  decide

/-- C6 (amended): when the shader effect is not yet compiled, the draw is
silently skipped — nothing is rendered, readiness and the callback count
are untouched, and no error surfaces — but on a tick that passes the
timing gate the scheduler still records the tick's time and advances
`_nextFrameIndex`, so the undrawn frame is skipped rather than retried. -/
theorem draw_failure_advances (frames : List GifFrame) (now : ℤ)
    (s : TickState)
    (hadv : s.currentFrame = none ∨
      ∃ f, s.currentFrame = some f ∧ f.delay ≤ now - s.previousDate) :
    (renderFrame frames now false s).2 = false ∧
    (renderFrame frames now false s).1.isReady = s.isReady ∧
    (renderFrame frames now false s).1.onLoadCalls = s.onLoadCalls ∧
    (renderFrame frames now false s).1.previousDate = now ∧
    (renderFrame frames now false s).1.nextFrameIndex
      = advanceIndex frames.length s.nextFrameIndex := by
  have hadv' : renderFrame frames now false s = renderAdvance frames now false s := by
    rcases hadv with hc | ⟨f, hc, hge⟩
    · exact renderFrame_none frames now false s hc
    · exact renderFrame_elapsed frames now false s f hc hge
  rw [hadv']
  simp [renderAdvance, drawPatch]

/-- C6 amended-claim witness: a concrete failing-draw tick from the start
state (no current frame, so the gate passes vacuously). -/
theorem draw_failure_advances_witness :
    (renderFrame sampleFrames 7 false initState).2 = false ∧
    (renderFrame sampleFrames 7 false initState).1.isReady = initState.isReady ∧
    (renderFrame sampleFrames 7 false initState).1.onLoadCalls = initState.onLoadCalls ∧
    (renderFrame sampleFrames 7 false initState).1.previousDate = 7 ∧
    (renderFrame sampleFrames 7 false initState).1.nextFrameIndex
      = advanceIndex sampleFrames.length initState.nextFrameIndex :=
  draw_failure_advances sampleFrames 7 initState (Or.inl rfl)

/-- C7 counterexample: on an empty frame sequence, resource creation fails
with the JavaScript `TypeError` raised by reading `this._frames[0].dims`,
not with a dedicated no-frames error. -/
theorem empty_frames_typeError_cex :
    createGifResources [] = Except.error GifError.typeError ∧
    createGifResources [] ≠ Except.error GifError.noFrames := by
  constructor
  · rfl
  · simp [createGifResources]

/-- C7 (amended): an empty decoded frame sequence does make construction
fail — the unchecked access to the first frame's dimensions raises a
`TypeError`, so no silently-stalled texture is produced — but the failure
is that unchecked access error, not a dedicated no-frames error; any
non-empty sequence constructs successfully. -/
theorem empty_frames_construction_fails (frames : List GifFrame) :
    (frames = [] → createGifResources frames = Except.error GifError.typeError) ∧
    (frames ≠ [] → ∃ v, createGifResources frames = Except.ok v) := by
  constructor
  · intro h
    subst h
    rfl
  · intro h
    match frames, h with
    | f :: fs, _ => exact ⟨_, rfl⟩

/-- C7 amended-claim witness: the empty sequence fails with a `TypeError`
and the two-frame sample sequence constructs successfully. -/
theorem empty_frames_construction_fails_witness :
    createGifResources [] = Except.error GifError.typeError ∧
    ∃ v, createGifResources sampleFrames = Except.ok v :=
  ⟨(empty_frames_construction_fails []).1 rfl,
   (empty_frames_construction_fails sampleFrames).2 (by simp [sampleFrames])⟩

/-- C8 counterexample: in the source's `dispose`, the effect wrapper (the
compositor's GPU program) is released at position 1, before the per-frame
patch texture at position 3, so the claimed order — patch textures before
program and geometry resources — is violated. -/
theorem dispose_order_cex :
    (disposeEvents 1).indexOf DisposeEvent.disposeEffectWrapper = 1 ∧
    (disposeEvents 1).indexOf (DisposeEvent.disposeFrameTexture 0) = 3 ∧
    ¬ ((disposeEvents 1).indexOf (DisposeEvent.disposeFrameTexture 0)
        < (disposeEvents 1).indexOf DisposeEvent.disposeEffectWrapper) := by
  decide

/-- C8 (amended): `dispose` releases resources in this order: first it
deregisters the per-tick render-loop callback, then it releases the
compositor-owned GPU program and geometry resources (effect wrapper, then
effect renderer), then every per-frame patch texture, then the
accumulation surface render target, and finally the base-class resources. -/
theorem dispose_order_actual (n i : ℕ) (hi : i < n) :
    (disposeEvents n)[0]? = some DisposeEvent.stopRenderLoop ∧
    (disposeEvents n)[1]? = some DisposeEvent.disposeEffectWrapper ∧
    (disposeEvents n)[2]? = some DisposeEvent.disposeEffectRenderer ∧
    (disposeEvents n)[3 + i]? = some (DisposeEvent.disposeFrameTexture i) ∧
    (disposeEvents n)[3 + n]? = some DisposeEvent.disposeRenderTarget ∧
    (disposeEvents n)[4 + n]? = some DisposeEvent.superDispose ∧
    (disposeEvents n).length = 5 + n := by
  refine ⟨by simp [disposeEvents], by simp [disposeEvents], by simp [disposeEvents],
    ?_, ?_, ?_, ?_⟩
  · rw [Nat.add_comm 3 i]
    simp only [disposeEvents, List.getElem?_cons_succ]
    rw [List.getElem?_append_left (by simp [hi]), List.getElem?_map,
      List.getElem?_range hi]
    rfl
  · rw [Nat.add_comm 3 n]
    simp only [disposeEvents, List.getElem?_cons_succ]
    rw [List.getElem?_append_right (by simp)]
    simp
  · rw [show 4 + n = (n + 1) + 3 from by omega]
    simp only [disposeEvents, List.getElem?_cons_succ]
    rw [List.getElem?_append_right (by simp [Nat.le_add_right])]
    simp
  · simp [disposeEvents]
    omega

/-- C8 amended-claim witness: the dispose order for a one-frame GIF. -/
theorem dispose_order_actual_witness :
    (disposeEvents 1)[0]? = some DisposeEvent.stopRenderLoop ∧
    (disposeEvents 1)[1]? = some DisposeEvent.disposeEffectWrapper ∧
    (disposeEvents 1)[2]? = some DisposeEvent.disposeEffectRenderer ∧
    (disposeEvents 1)[3 + 0]? = some (DisposeEvent.disposeFrameTexture 0) ∧
    (disposeEvents 1)[3 + 1]? = some DisposeEvent.disposeRenderTarget ∧
    (disposeEvents 1)[4 + 1]? = some DisposeEvent.superDispose ∧
    (disposeEvents 1).length = 5 + 1 :=
  dispose_order_actual 1 0 (by decide)

/-- C9: calling `dispose` before the asynchronous decode has completed is
not tolerated — iterating the still-null `_frames` raises a `TypeError` —
whereas after decode (frames parsed and render target created) `dispose`
succeeds and performs the release sequence. -/
theorem dispose_before_decode_throws :
    disposeHandle preDecodeHandle = Except.error GifError.typeError ∧
    (∀ frames, disposeHandle
      { framesLoaded := some frames, renderTargetCreated := true }
      = Except.ok (disposeEvents frames.length)) := by
  constructor
  · rfl
  · intro frames
    rfl

/-- C10: on a tick where no current frame exists yet — in particular the
very first tick after decode — the delay gate is bypassed: whatever the
clock reading and whatever the frames' delays, the frame at
`_nextFrameIndex` is made current and drawn at once, and from the start
state this is frame 0. -/
theorem first_tick_ignores_delay (frames : List GifFrame) (now : ℤ)
    (s : TickState) (hcur : s.currentFrame = none) :
    (renderFrame frames now true s).2 = true ∧
    (renderFrame frames now true s).1.currentFrame = frames[s.nextFrameIndex]? ∧
    (renderFrame frames now true s).1.previousDate = now ∧
    initState.currentFrame = none ∧
    (renderFrame frames now true initState).2 = true ∧
    (renderFrame frames now true initState).1.currentFrame = frames[0]? := by
  have h1 := renderFrame_none frames now true s hcur
  have h2 := renderFrame_none frames now true initState rfl
  rw [h1, h2]
  simp [renderAdvance, drawPatch, initState]

/-- C10 witness: the first tick from the start state draws frame A at once
even though the clock reads 0 and frame A carries a 100 ms delay. -/
theorem first_tick_ignores_delay_witness :
    (renderFrame sampleFrames 0 true initState).2 = true ∧
    (renderFrame sampleFrames 0 true initState).1.currentFrame
      = sampleFrames[initState.nextFrameIndex]? ∧
    (renderFrame sampleFrames 0 true initState).1.previousDate = 0 ∧
    initState.currentFrame = none ∧
    (renderFrame sampleFrames 0 true initState).2 = true ∧
    (renderFrame sampleFrames 0 true initState).1.currentFrame
      = sampleFrames[0]? :=
  first_tick_ignores_delay sampleFrames 0 initState rfl

end AnimatedGif
